import Mathlib

/-!
Shallow embedding of the synapse_ros bridge (src/src/synapse_ros.cpp).

Modelling conventions:

* The C++ clock arithmetic routes 64-bit integer values through the double
  literal 1e9 (for example sec() * 1e9 and nanos / 1e9).  C++ converts the
  resulting double back to an integer by truncation toward zero; within the
  range where double arithmetic on these integers is exact this coincides with
  exact integer arithmetic using truncated division.  The embedding therefore
  uses Int together with Int.tdiv (truncation toward zero, the semantics of
  C++ integer division).
* The message field widths (protobuf Time and Header, builtin_interfaces Time)
  are declared outside this repository's source tree.  Modelled from the spec:
  the data-model section declares ClockOffset and stamps as signed integers in
  seconds/nanoseconds, so all fields are modelled as Int.  Note that in the
  generated C++ the nanosec field of builtin_interfaces Time is unsigned; the
  embedding records the mathematical value the source computes and assigns.
* ROS publishers and the tinyframe TF_Send are external collaborators; the
  embedding returns the values handed to them instead of performing I/O, and
  member functions that may touch the node state are modelled as explicit
  state-passing functions on ClockState (the node state the claims concern,
  namely the field named ros_clock_offset_ in the source).
-/

/-- Nanoseconds per second; the source writes this as the double literal 1e9,
used in exact integer positions. -/
def NSEC_PER_SEC : Int := 1000000000

/-- builtin_interfaces::msg::Time as used by the source (sec, nanosec). -/
structure BuiltinTime where
  sec : Int
  nanosec : Int
deriving DecidableEq, Repr

/-- synapse::msgs::Time / the stamp inside synapse::msgs::Header (protobuf). -/
structure SynTime where
  sec : Int
  nanosec : Int
deriving DecidableEq, Repr

/-- synapse::msgs::Header: frame_id plus an optional stamp (has_stamp). -/
structure SynHeader where
  frame_id : String
  stamp : Option SynTime
deriving DecidableEq, Repr

/-- std_msgs::msg::Header: the ROS header built by compute_header.  A default
constructed header has empty frame_id and a zero stamp. -/
structure RosHeader where
  frame_id : String
  stamp : BuiltinTime
deriving DecidableEq, Repr

/-- The node state the claims concern: the stored clock offset
(field ros_clock_offset_ of SynapseRos). -/
structure ClockState where
  ros_clock_offset_ : BuiltinTime
deriving DecidableEq, Repr

/-- SynapseRos::compute_header (synapse_ros.cpp lines 54-68): copies frame_id;
if the inbound header has a stamp, adds the stored clock offset and folds the
nanosecond carry into the seconds with truncated division by 1e9; otherwise the
default-constructed zero stamp is returned untouched. -/
def compute_header (st : ClockState) (msg : SynHeader) : RosHeader :=
  match msg.stamp with
  | none => { frame_id := msg.frame_id, stamp := { sec := 0, nanosec := 0 } }
  | some stamp =>
      let sec := stamp.sec + st.ros_clock_offset_.sec
      let nanos := stamp.nanosec + st.ros_clock_offset_.nanosec
      let extra_sec := Int.tdiv nanos NSEC_PER_SEC
      let nanos2 := nanos - extra_sec * NSEC_PER_SEC
      let sec2 := sec + extra_sec
      { frame_id := msg.frame_id, stamp := { sec := sec2, nanosec := nanos2 } }

/-- The two external output channels of the uptime dispatch path
(publishers out/uptime and out/clock_offset). -/
inductive Channel where
  | out_uptime
  | out_clock_offset
deriving DecidableEq, Repr

/-- SynapseRos::publish_uptime (synapse_ros.cpp lines 118-134): computes
clock_offset_nanos = now.nanoseconds() - (sec * 1e9 + nanosec), overwrites the
stored offset with its truncated-division split, and publishes the remote
uptime verbatim on out/uptime followed by the new offset on out/clock_offset.
Returns the new state and the list of (channel, message) publish calls. -/
def publish_uptime (st : ClockState) (msg : SynTime) (now_nanoseconds : Int) :
    ClockState × List (Channel × BuiltinTime) :=
  let uptime_nanos := msg.sec * NSEC_PER_SEC + msg.nanosec
  let clock_offset_nanos := now_nanoseconds - uptime_nanos
  let ros_uptime : BuiltinTime := { sec := msg.sec, nanosec := msg.nanosec }
  let off_sec := Int.tdiv clock_offset_nanos NSEC_PER_SEC
  let off : BuiltinTime :=
    { sec := off_sec, nanosec := clock_offset_nanos - off_sec * NSEC_PER_SEC }
  ({ ros_clock_offset_ := off },
   [(Channel.out_uptime, ros_uptime), (Channel.out_clock_offset, off)])

/-- The element-wise push_back copy loop used for the actuator arrays. -/
def push_back_all {α : Type} (xs : List α) : List α :=
  xs.foldl (fun acc x => acc.concat x) []

/-- synapse::msgs::Actuators: optional header plus three float arrays (the
element type is irrelevant to the claims and kept abstract). -/
structure SynActuators (α : Type) where
  header : Option SynHeader
  position : List α
  velocity : List α
  normalized : List α
deriving DecidableEq, Repr

/-- actuator_msgs::msg::Actuators as built by publish_actuators. -/
structure RosActuators (α : Type) where
  header : RosHeader
  position : List α
  velocity : List α
  normalized : List α
deriving DecidableEq, Repr

/-- SynapseRos::publish_actuators (synapse_ros.cpp lines 70-93): corrects the
header through compute_header when present, copies the arrays, and hands the
result to the out/actuators publisher.  The node state is passed through to
show it is not written. -/
def publish_actuators {α : Type} (st : ClockState) (msg : SynActuators α) :
    ClockState × RosActuators α :=
  let hdr : RosHeader :=
    match msg.header with
    | some h => compute_header st h
    | none => { frame_id := "", stamp := { sec := 0, nanosec := 0 } }
  (st,
   { header := hdr,
     position := push_back_all msg.position,
     velocity := push_back_all msg.velocity,
     normalized := push_back_all msg.normalized })

/-- synapse::msgs::Status (scalar payload fields typed as in the source,
with protobuf scalar types modelled as Int/Bool/String). -/
structure SynStatus where
  header : Option SynHeader
  arming : Int
  fuel : Int
  joy : Int
  mode : Int
  safety : Int
  fuel_percentage : Int
  power : Int
  status_message : String
  request_rejected : Bool
  request_seq : Int
deriving DecidableEq, Repr

/-- synapse_msgs::msg::Status as built by publish_status. -/
structure RosStatus where
  header : RosHeader
  arming : Int
  fuel : Int
  joy : Int
  mode : Int
  safety : Int
  fuel_percentage : Int
  power : Int
  status_message : String
  request_rejected : Bool
  request_seq : Int
deriving DecidableEq, Repr

/-- SynapseRos::publish_status (synapse_ros.cpp lines 95-116): corrects the
header through compute_header when present, copies the scalar fields, and
hands the result to the out/status publisher. -/
def publish_status (st : ClockState) (msg : SynStatus) : ClockState × RosStatus :=
  let hdr : RosHeader :=
    match msg.header with
    | some h => compute_header st h
    | none => { frame_id := "", stamp := { sec := 0, nanosec := 0 } }
  (st,
   { header := hdr,
     arming := msg.arming,
     fuel := msg.fuel,
     joy := msg.joy,
     mode := msg.mode,
     safety := msg.safety,
     fuel_percentage := msg.fuel_percentage,
     power := msg.power,
     status_message := msg.status_message,
     request_rejected := msg.request_rejected,
     request_seq := msg.request_seq })

/-- Modelled from the spec: the closed, process-wide enumeration of topic
identifiers (the SYNAPSE_*_TOPIC constants live in the external tinyframe
header, not under this repository's source tree; the spec declares the topic
catalogue a closed enumeration). -/
inductive TopicId where
  | SYNAPSE_ACTUATORS_TOPIC
  | SYNAPSE_JOY_TOPIC
  | SYNAPSE_IMU_TOPIC
deriving DecidableEq, Repr

/-- The registered topic constants used by the outbound call sites. -/
def registered_topics : List TopicId :=
  [TopicId.SYNAPSE_ACTUATORS_TOPIC, TopicId.SYNAPSE_JOY_TOPIC, TopicId.SYNAPSE_IMU_TOPIC]

/-- TF_Msg as filled by tf_send: topic type, length field, payload bytes. -/
structure TF_Msg where
  type : TopicId
  len : Nat
  data : List Nat
deriving DecidableEq, Repr

/-- SynapseRos::tf_send (synapse_ros.cpp lines 208-215): builds the frame with
len = data.length() and data = the serialized buffer, and hands it to TF_Send.
The embedding returns the frame handed over. -/
def tf_send (topic : TopicId) (data : List Nat) : TF_Msg :=
  { type := topic, len := data.length, data := data }

/-- The frame invariant of the spec: the length field equals the payload byte
length and the topic identifier is one of the registered constants. -/
def frame_ok (f : TF_Msg) : Bool :=
  (f.len == f.data.length) && registered_topics.contains f.type

/-- The observable effects of a subscription callback: stderr log lines and
the frames handed to TF_Send, in order. -/
structure CallbackResult where
  logs : List String
  sent : List TF_Msg
deriving DecidableEq, Repr

/-- SynapseRos::actuators_callback (synapse_ros.cpp lines 136-162), from the
serialization step onward: SerializeToString is external protobuf code, so its
outcome is a parameter (success flag and resulting buffer).  On failure the
callback prints to stderr; the call to tf_send is unconditional. -/
def actuators_callback (serialize_ok : Bool) (data : List Nat) : CallbackResult :=
  { logs := if serialize_ok then [] else ["Failed to serialize Actuators"],
    sent := [tf_send TopicId.SYNAPSE_ACTUATORS_TOPIC data] }

/-- SynapseRos::joy_callback (synapse_ros.cpp lines 164-180), from the
serialization step onward; same shape as actuators_callback. -/
def joy_callback (serialize_ok : Bool) (data : List Nat) : CallbackResult :=
  { logs := if serialize_ok then [] else ["Failed to serialize Joy"],
    sent := [tf_send TopicId.SYNAPSE_JOY_TOPIC data] }

/-- SynapseRos::imu_callback (synapse_ros.cpp lines 182-206), from the
serialization step onward; same shape as actuators_callback. -/
def imu_callback (serialize_ok : Bool) (data : List Nat) : CallbackResult :=
  { logs := if serialize_ok then [] else ["Failed to serialize IMU"],
    sent := [tf_send TopicId.SYNAPSE_IMU_TOPIC data] }

/-! Helper lemmas about the truncated-division split n = q * 1e9 + r. -/

/-- For a nonnegative total nanosecond count, the truncated-division split used
by the source produces a remainder in [0, 1e9) and preserves the total. -/
theorem tdiv_split_nonneg (n : Int) (h : 0 ≤ n) :
    0 ≤ n - Int.tdiv n NSEC_PER_SEC * NSEC_PER_SEC ∧
    n - Int.tdiv n NSEC_PER_SEC * NSEC_PER_SEC < NSEC_PER_SEC := by
  have hb : (0 : Int) ≤ NSEC_PER_SEC := by decide
  rw [Int.tdiv_eq_ediv h hb]
  simp only [NSEC_PER_SEC]
  omega

/-- C1: observing the uptime message (sec=100, nanosec=0) while the local wall
clock reads 1000.5 s (now.nanoseconds() = 1000500000000) stores the clock
offset (sec=900, nanosec=500000000); correcting an inbound stamp
(sec=105, nanosec=600000000) with that stored offset yields the stamp
(sec=1006, nanosec=100000000), the nanosecond carry folded into the seconds. -/
theorem clock_path_worked_example :
    (publish_uptime { ros_clock_offset_ := { sec := 0, nanosec := 0 } }
        { sec := 100, nanosec := 0 } 1000500000000).1.ros_clock_offset_
      = { sec := 900, nanosec := 500000000 } ∧
    (compute_header
        (publish_uptime { ros_clock_offset_ := { sec := 0, nanosec := 0 } }
          { sec := 100, nanosec := 0 } 1000500000000).1
        { frame_id := "base_link", stamp := some { sec := 105, nanosec := 600000000 } }).stamp
      = { sec := 1006, nanosec := 100000000 } := by
  refine ⟨by decide, by decide⟩

/-- C2 counterexample: for the observation remote uptime (sec=1, nanosec=0)
with local now at 500000000 ns the raw difference is -500000000 ns, and the
stored offset nanosecond component is the negative remainder -500000000, not a
value in [0, 1e9): the truncating division carries nothing for negative
differences. -/
theorem offset_negative_difference_cex :
    ¬ (0 ≤ (publish_uptime { ros_clock_offset_ := { sec := 0, nanosec := 0 } }
            { sec := 1, nanosec := 0 } 500000000).1.ros_clock_offset_.nanosec ∧
       (publish_uptime { ros_clock_offset_ := { sec := 0, nanosec := 0 } }
            { sec := 1, nanosec := 0 } 500000000).1.ros_clock_offset_.nanosec
          < NSEC_PER_SEC) := by
  decide

/-- C2 (amended): after every offset-writing call whose raw difference
local_now - remote_uptime is nonnegative, the stored offset nanosecond
component lies in [0, 1e9) with the excess carried into the seconds; for
negative raw differences the truncated division leaves a negative remainder
and the invariant fails. -/
theorem offset_normalized_of_nonneg (st : ClockState) (msg : SynTime)
    (now_nanoseconds : Int)
    (h : 0 ≤ now_nanoseconds - (msg.sec * NSEC_PER_SEC + msg.nanosec)) :
    0 ≤ (publish_uptime st msg now_nanoseconds).1.ros_clock_offset_.nanosec ∧
    (publish_uptime st msg now_nanoseconds).1.ros_clock_offset_.nanosec
      < NSEC_PER_SEC := by
  simp only [publish_uptime]
  exact tdiv_split_nonneg _ h

/-- Witness for the amended C2 at a concrete observation. -/
theorem offset_normalized_of_nonneg_witness :
    0 ≤ (publish_uptime { ros_clock_offset_ := { sec := 7, nanosec := 7 } }
          { sec := 100, nanosec := 0 } 1000500000000).1.ros_clock_offset_.nanosec ∧
    (publish_uptime { ros_clock_offset_ := { sec := 7, nanosec := 7 } }
          { sec := 100, nanosec := 0 } 1000500000000).1.ros_clock_offset_.nanosec
      < NSEC_PER_SEC :=
  offset_normalized_of_nonneg
    { ros_clock_offset_ := { sec := 7, nanosec := 7 } }
    { sec := 100, nanosec := 0 } 1000500000000 (by decide)

/-- C3 counterexample: at the worked-example observation the value published
on out/uptime is the remote uptime verbatim (sec=100, nanosec=0), while the
uptime corrected by the newly stored offset is (sec=1000, nanosec=500000000);
the two differ, so the published uptime is not the corrected uptime. -/
theorem uptime_published_verbatim_cex :
    (publish_uptime { ros_clock_offset_ := { sec := 0, nanosec := 0 } }
        { sec := 100, nanosec := 0 } 1000500000000).2.head?
      = some (Channel.out_uptime, { sec := 100, nanosec := 0 }) ∧
    (compute_header
        (publish_uptime { ros_clock_offset_ := { sec := 0, nanosec := 0 } }
          { sec := 100, nanosec := 0 } 1000500000000).1
        { frame_id := "", stamp := some { sec := 100, nanosec := 0 } }).stamp
      = { sec := 1000, nanosec := 500000000 } ∧
    ({ sec := 100, nanosec := 0 } : BuiltinTime)
      ≠ { sec := 1000, nanosec := 500000000 } := by
  refine ⟨by decide, by decide, by decide⟩

/-- C3 (amended): on every inbound uptime message the dispatcher publishes
exactly two messages on the two distinct external channels: the remote uptime
verbatim (not corrected) on out/uptime, and the newly computed clock offset on
out/clock_offset. -/
theorem uptime_dispatch_two_channels (st : ClockState) (msg : SynTime)
    (now_nanoseconds : Int) :
    (publish_uptime st msg now_nanoseconds).2
      = [(Channel.out_uptime, { sec := msg.sec, nanosec := msg.nanosec }),
         (Channel.out_clock_offset,
          (publish_uptime st msg now_nanoseconds).1.ros_clock_offset_)] ∧
    Channel.out_uptime ≠ Channel.out_clock_offset := by
  exact ⟨rfl, by decide⟩

/-- C4: the offset stored by an observation equals local_now - remote_uptime
in nanoseconds (sec * 1e9 + nanosec reconstructs the raw difference exactly),
and it is independent of the previously stored offset: two arbitrary prior
states yield the same post-observation state (replace-on-observe). -/
theorem offset_replace_on_observe (st1 st2 : ClockState) (msg : SynTime)
    (now_nanoseconds : Int) :
    (publish_uptime st1 msg now_nanoseconds).1
      = (publish_uptime st2 msg now_nanoseconds).1 ∧
    (publish_uptime st1 msg now_nanoseconds).1.ros_clock_offset_.sec * NSEC_PER_SEC
        + (publish_uptime st1 msg now_nanoseconds).1.ros_clock_offset_.nanosec
      = now_nanoseconds - (msg.sec * NSEC_PER_SEC + msg.nanosec) := by
  refine ⟨rfl, ?_⟩
  simp only [publish_uptime]
  ring

/-- C5: for an inbound actuators or status message whose header carries a
stamp, the header handed to the external publish call is compute_header of the
remote header; its stamp equals remote stamp plus the stored offset with the
nanosecond carry folded into the seconds (the total nanosecond count is
preserved and the published nanosecond component lies in [0, 1e9)), and the
frame_id passes through unchanged.  The nonnegativity hypotheses reflect the
unsigned 32-bit nanosecond fields the source reads. -/
theorem publish_corrected_stamp {α : Type} (st : ClockState) (hd : SynHeader)
    (s : SynTime) (amsg : SynActuators α) (smsg : SynStatus)
    (hah : amsg.header = some hd) (hsh : smsg.header = some hd)
    (hst : hd.stamp = some s)
    (h1 : 0 ≤ s.nanosec) (h2 : 0 ≤ st.ros_clock_offset_.nanosec) :
    (publish_actuators st amsg).2.header = compute_header st hd ∧
    (publish_status st smsg).2.header = compute_header st hd ∧
    (compute_header st hd).frame_id = hd.frame_id ∧
    (compute_header st hd).stamp.sec * NSEC_PER_SEC
        + (compute_header st hd).stamp.nanosec
      = (s.sec + st.ros_clock_offset_.sec) * NSEC_PER_SEC
        + (s.nanosec + st.ros_clock_offset_.nanosec) ∧
    0 ≤ (compute_header st hd).stamp.nanosec ∧
    (compute_header st hd).stamp.nanosec < NSEC_PER_SEC := by
  have hnn : 0 ≤ s.nanosec + st.ros_clock_offset_.nanosec := by
    exact add_nonneg h1 h2
  have hsplit := tdiv_split_nonneg (s.nanosec + st.ros_clock_offset_.nanosec) hnn
  refine ⟨?_, ?_, ?_, ?_, ?_, ?_⟩
  · simp [publish_actuators, hah]
  · simp [publish_status, hsh]
  · simp [compute_header, hst]
  · simp only [compute_header, hst]
    ring
  · simp only [compute_header, hst]
    exact hsplit.1
  · simp only [compute_header, hst]
    exact hsplit.2

/-- Witness for C5: the worked-example offset applied inside a concrete
actuators and a concrete status message. -/
theorem publish_corrected_stamp_witness :
    (publish_actuators
        { ros_clock_offset_ := { sec := 900, nanosec := 500000000 } }
        ({ header := some { frame_id := "base_link",
                            stamp := some { sec := 105, nanosec := 600000000 } },
           position := [], velocity := [], normalized := [] } : SynActuators Int)).2.header
      = compute_header { ros_clock_offset_ := { sec := 900, nanosec := 500000000 } }
          { frame_id := "base_link",
            stamp := some { sec := 105, nanosec := 600000000 } } ∧
    (publish_status
        { ros_clock_offset_ := { sec := 900, nanosec := 500000000 } }
        { header := some { frame_id := "base_link",
                           stamp := some { sec := 105, nanosec := 600000000 } },
          arming := 0, fuel := 0, joy := 0, mode := 0, safety := 0,
          fuel_percentage := 0, power := 0, status_message := "",
          request_rejected := false, request_seq := 0 }).2.header
      = compute_header { ros_clock_offset_ := { sec := 900, nanosec := 500000000 } }
          { frame_id := "base_link",
            stamp := some { sec := 105, nanosec := 600000000 } } ∧
    (compute_header { ros_clock_offset_ := { sec := 900, nanosec := 500000000 } }
        { frame_id := "base_link",
          stamp := some { sec := 105, nanosec := 600000000 } }).frame_id
      = "base_link" ∧
    (compute_header { ros_clock_offset_ := { sec := 900, nanosec := 500000000 } }
        { frame_id := "base_link",
          stamp := some { sec := 105, nanosec := 600000000 } }).stamp.sec * NSEC_PER_SEC
        + (compute_header { ros_clock_offset_ := { sec := 900, nanosec := 500000000 } }
            { frame_id := "base_link",
              stamp := some { sec := 105, nanosec := 600000000 } }).stamp.nanosec
      = ((105 : Int) + 900) * NSEC_PER_SEC + ((600000000 : Int) + 500000000) ∧
    0 ≤ (compute_header { ros_clock_offset_ := { sec := 900, nanosec := 500000000 } }
          { frame_id := "base_link",
            stamp := some { sec := 105, nanosec := 600000000 } }).stamp.nanosec ∧
    (compute_header { ros_clock_offset_ := { sec := 900, nanosec := 500000000 } }
        { frame_id := "base_link",
          stamp := some { sec := 105, nanosec := 600000000 } }).stamp.nanosec
      < NSEC_PER_SEC :=
  publish_corrected_stamp
    { ros_clock_offset_ := { sec := 900, nanosec := 500000000 } }
    { frame_id := "base_link", stamp := some { sec := 105, nanosec := 600000000 } }
    { sec := 105, nanosec := 600000000 }
    ({ header := some { frame_id := "base_link",
                        stamp := some { sec := 105, nanosec := 600000000 } },
       position := [], velocity := [], normalized := [] } : SynActuators Int)
    { header := some { frame_id := "base_link",
                       stamp := some { sec := 105, nanosec := 600000000 } },
      arming := 0, fuel := 0, joy := 0, mode := 0, safety := 0,
      fuel_percentage := 0, power := 0, status_message := "",
      request_rejected := false, request_seq := 0 }
    rfl rfl rfl (by decide) (by decide)

/-- C6 counterexample: with a failed serialization (SerializeToString returns
false, buffer left empty) the actuators callback logs the failure but still
hands a frame to tf_send: the sent list is nonempty. -/
theorem encode_failure_still_sent_cex :
    ¬ ((actuators_callback false []).sent = []) ∧
    (actuators_callback false []).sent
      = [tf_send TopicId.SYNAPSE_ACTUATORS_TOPIC []] ∧
    (actuators_callback false []).logs = ["Failed to serialize Actuators"] := by
  refine ⟨by decide, rfl, rfl⟩

/-- C6 (amended): an encode failure in a subscription callback is absorbed at
the dispatcher layer and reported to stderr and no exception propagates, but
the frame built from the (possibly empty or stale) buffer is still handed to
the transport send operation. -/
theorem encode_failure_logged_and_sent (d1 d2 d3 : List Nat) :
    (actuators_callback false d1).logs = ["Failed to serialize Actuators"] ∧
    (actuators_callback false d1).sent
      = [tf_send TopicId.SYNAPSE_ACTUATORS_TOPIC d1] ∧
    (joy_callback false d2).logs = ["Failed to serialize Joy"] ∧
    (joy_callback false d2).sent = [tf_send TopicId.SYNAPSE_JOY_TOPIC d2] ∧
    (imu_callback false d3).logs = ["Failed to serialize IMU"] ∧
    (imu_callback false d3).sent = [tf_send TopicId.SYNAPSE_IMU_TOPIC d3] :=
  ⟨rfl, rfl, rfl, rfl, rfl, rfl⟩

/-- C7: publishing an actuators or a status message leaves the node state,
hence the stored clock offset, unchanged; compute_header has read-only access
to the state by its very type (it returns no state), so the offset is written
only by the uptime dispatch path publish_uptime. -/
theorem offset_single_writer {α : Type} (st : ClockState)
    (amsg : SynActuators α) (smsg : SynStatus) :
    (publish_actuators st amsg).1 = st ∧ (publish_status st smsg).1 = st :=
  ⟨rfl, rfl⟩

/-- C8: every frame a subscription callback hands to the transport satisfies
the frame invariant: the length field equals the payload byte length, and the
topic identifier belongs to the closed registered set. -/
theorem sent_frames_invariant (ok1 ok2 ok3 : Bool) (d1 d2 d3 : List Nat) :
    ((actuators_callback ok1 d1).sent.all frame_ok) = true ∧
    ((joy_callback ok2 d2).sent.all frame_ok) = true ∧
    ((imu_callback ok3 d3).sent.all frame_ok) = true := by
  refine ⟨?_, ?_, ?_⟩ <;>
    simp [actuators_callback, joy_callback, imu_callback, tf_send, frame_ok,
      registered_topics, List.contains]

/-- C10: on a header without a stamp, compute_header copies the frame_id and
returns the default zero stamp, independent of the stored clock offset
(the right-hand side mentions no offset), and it is total: no failure. -/
theorem header_without_stamp (st : ClockState) (fid : String) :
    compute_header st { frame_id := fid, stamp := none }
      = { frame_id := fid, stamp := { sec := 0, nanosec := 0 } } :=
  rfl
